import Mathlib

/-!
Verification of the remote-config-client core: a shallow embedding of
ConfigClient.ts (tryFetch, getOverride, getConfiguration, refresh,
setPolling, pause, resume) and of the default providers it composes
(defaultTransformer, defaultValidator, DefaultCacheProvider), together with
theorems settling the specified properties of the endpoint-fallback
resolver, the validate/transform/compare/callback pipeline, the override
short-circuit, and the polling timer.

Modelling conventions:
- JavaScript runtime values are the inductive type Val; objects are opaque
  identities because deep structural equality is an external collaborator
  reached only through the pluggable equality provider.
- Promises that resolve or reject become FetchOutcome / ValidationOutcome.
- The pluggable providers (fetch, equality, transformer, validator,
  callback) are function parameters gathered in Providers.
- Each operation returns, besides its result, an explicit trace of the
  observable provider calls and reports (List Effect), so that claims such
  as "the cache is never written" or "no endpoint after i is fetched" are
  statements about the trace.
- The cache is the in-memory single slot of DefaultCacheProvider, stored in
  the client state; reads and writes are still recorded in the trace.
- Timers: setTimeout yields a fresh identifier recorded both in the
  timeoutId field (mirroring the single field of ConfigClient) and in the
  multiset liveTimers of timers the runtime currently has outstanding;
  clearTimeout removes the identifier from liveTimers if still present.
-/

/-- Dynamic JavaScript-like runtime value. Objects carry only an opaque
identity: their internal structure is out of scope (deep equality is an
external collaborator supplied as the equality provider). -/
inductive Val where
  | vUndefined : Val
  | vNull : Val
  | vBool : Bool → Val
  | vNum : Int → Val
  | vStr : String → Val
  | vObj : Nat → Val
  deriving DecidableEq

/-- Truthiness of a dynamic value, exactly as JavaScript coerces a value in
a condition: undefined, null, false, 0 and the empty string are falsy, every
other value (objects in particular) is truthy. -/
def truthyVal : Val → Bool
  | .vUndefined => false
  | .vNull => false
  | .vBool b => b
  | .vNum n => n != 0
  | .vStr s => s != ""
  | .vObj _ => true

/-- Outcome of awaiting the fetch provider on one endpoint: the promise
either resolves with a value or rejects with a thrown cause. -/
inductive FetchOutcome where
  | resolve : Val → FetchOutcome
  | reject : Val → FetchOutcome
  deriving DecidableEq

/-- Outcome of awaiting the validation provider: resolves, or rejects with a
thrown cause. -/
inductive ValidationOutcome where
  | resolve : ValidationOutcome
  | reject : Val → ValidationOutcome
  deriving DecidableEq

/-- The ConfigurationEventStatus union type of the source. -/
inductive Status where
  | error : Status
  | loaded : Status
  | updated : Status
  | equal : Status
  | cached : Status
  deriving DecidableEq

/-- ConfigurationFailedError: carries all endpoints that were attempted. -/
structure ConfigurationFailedError where
  endpoints : List String
  deriving DecidableEq

/-- ConfigurationEvent of the source; optional fields default to the absent
value, as an object literal omitting them produces undefined fields. -/
structure ConfigurationEvent where
  status : Status
  endpoint : Option String := none
  configuration : Val := .vUndefined
  error : Option ConfigurationFailedError := none
  deriving DecidableEq

/-- Observable actions of one operation, in order: provider invocations,
error reports and timer manipulations. fetchErrorReport carries the endpoint
and the thrown cause (the two fields of FetchError); undefinedErrorReport
carries the endpoint (the field of ConfigurationUndefinedError);
validationErrorReport carries the thrown cause and the raw configuration,
the two arguments of onValidationError. -/
inductive Effect where
  | fetchCall : String → Effect
  | fetchErrorReport : String → Val → Effect
  | undefinedErrorReport : String → Effect
  | validatorCall : Val → Effect
  | validationErrorReport : Val → Val → Effect
  | cacheRead : Effect
  | cacheWrite : Val → Effect
  | callbackInvoke : ConfigurationEvent → Effect
  | timerSet : Nat → Effect
  | timerClear : Nat → Effect
  deriving DecidableEq

/-- The pluggable providers the client calls through narrow interfaces. The
consumer callback returns the resolved value of its promise (vUndefined for
a callback resolving undefined); a throwing callback is not modelled, as its
error deliberately propagates out of the client. -/
structure Providers where
  fetch : String → FetchOutcome
  equality : Val → Val → Bool
  transformer : Val → Val
  validator : Val → ValidationOutcome
  callback : ConfigurationEvent → Val

/-- Mutable state of a ConfigClient instance, together with the in-memory
cache slot of DefaultCacheProvider and the runtime timer bookkeeping.
interval is in seconds with 0 meaning unset, mirroring
options.interval or-else undefined. timeoutId mirrors the single field of
the class (it is not reset by clearTimeout); liveTimers is the list of
timers the runtime still has outstanding; nextTimerId supplies fresh
identifiers. -/
structure ClientState where
  override : Val := .vUndefined
  interval : Nat := 0
  endpoints : List String
  loaded : Bool := false
  paused : Bool := false
  cacheVal : Val := .vUndefined
  timeoutId : Option Nat := none
  liveTimers : List Nat := []
  nextTimerId : Nat := 0
  deriving DecidableEq

/-- Default transform provider of the source: returns its input if truthy,
else undefined. -/
def defaultTransformer (config : Val) : Val :=
  if truthyVal config then config else .vUndefined

/-- Default validation provider of the source: always resolves. -/
def defaultValidator (_config : Val) : ValidationOutcome :=
  .resolve

/-- Loop of ConfigClient.tryFetch. It consumes the copied endpoint list via
shift; the accumulator data holds the last value any fetch resolved with
(initially undefined, updated even by falsy resolutions). Returns the trace,
the final value of the ep variable (none when shift exhausted the list, the
shifted string otherwise) and the final value of data. A falsy (empty)
endpoint string fails the truthiness test on ep and ends the loop. For a
truthy resolved value the loop cancels with that endpoint and value; a falsy
resolved value reports a ConfigurationUndefinedError, a rejection reports a
FetchError, and either way the loop continues. -/
def tryFetchLoop (fetch : String → FetchOutcome) :
    List String → Val → List Effect × Option String × Val
  | [], data => ([], none, data)
  | ep :: rest, data =>
    if ep ≠ "" then
      match fetch ep with
      | .resolve v =>
        if truthyVal v then
          ([.fetchCall ep], some ep, v)
        else
          let r := tryFetchLoop fetch rest v
          (.fetchCall ep :: .undefinedErrorReport ep :: r.1, r.2)
      | .reject e =>
        let r := tryFetchLoop fetch rest data
        (.fetchCall ep :: .fetchErrorReport ep e :: r.1, r.2)
    else
      ([], some ep, data)

/-- Result object of ConfigClient.tryFetch. -/
structure TryFetchResult where
  endpoint : Option String
  configuration : Val
  error : Option ConfigurationFailedError
  deriving DecidableEq

/-- ConfigClient.tryFetch: run the loop from undefined data and build the
result object; the error field is a ConfigurationFailedError carrying the
full configured endpoint list exactly when the final data is falsy. -/
def tryFetch (fetch : String → FetchOutcome) (endpoints : List String) :
    List Effect × TryFetchResult :=
  let r := tryFetchLoop fetch endpoints .vUndefined
  (r.1,
   { endpoint := r.2.1
     configuration := r.2.2
     error := if truthyVal r.2.2 then none else some ⟨endpoints⟩ })

/-- ConfigClient.setPolling: when asked to start and a positive interval is
configured, schedule a fresh timer and store its identifier (the previous
identifier is overwritten and its timer, if still outstanding, is NOT
cleared); otherwise clear the timer named by timeoutId if there is one
(clearing an identifier no longer outstanding is a no-op, and timeoutId
itself is not reset). -/
def setPolling (s : ClientState) (start : Bool) : ClientState × List Effect :=
  if start = true ∧ 0 < s.interval then
    let id := s.nextTimerId
    ({ s with
        timeoutId := some id
        liveTimers := s.liveTimers ++ [id]
        nextTimerId := id + 1 },
     [.timerSet id])
  else
    match s.timeoutId with
    | some id => ({ s with liveTimers := s.liveTimers.erase id }, [.timerClear id])
    | none => (s, [])

/-- ConfigClient.getOverride: build a cached event around the override,
invoke the callback once, keep its truthy resolved value or else the
override, set the loaded flag, and return the event with the possibly
replaced configuration. No fetch, cache or timer activity. -/
def getOverride (P : Providers) (s : ClientState) :
    ClientState × List Effect × ConfigurationEvent :=
  let ev : ConfigurationEvent := { configuration := s.override, status := .cached }
  let cbv := P.callback ev
  let configuration := if truthyVal cbv then cbv else s.override
  ({ s with loaded := true }, [.callbackInvoke ev], { ev with configuration })

/-- ConfigClient.refresh: override short-circuit, else cancel polling, walk
the endpoints, and on a resolver error return the error event at once;
otherwise run the pipeline: validate (errors caught and reported), read the
prior cached value, transform, compare, derive the status, invoke the
callback (its truthy result replaces the candidate), write the cache, set
the loaded flag, reschedule polling unless paused, and return the event. -/
def refresh (P : Providers) (s : ClientState) :
    ClientState × List Effect × ConfigurationEvent :=
  if truthyVal s.override then getOverride P s
  else
    let sp := setPolling s false
    let s1 := sp.1
    let tf := tryFetch P.fetch s.endpoints
    let res := tf.2
    match res.error with
    | some e =>
      (s1, sp.2 ++ tf.1,
       { status := .error
         endpoint := res.endpoint
         configuration := .vUndefined
         error := some e })
    | none =>
      let data := res.configuration
      let vtr : List Effect :=
        match P.validator data with
        | .resolve => [.validatorCall data]
        | .reject err => [.validatorCall data, .validationErrorReport err data]
      let source := s1.cacheVal
      let target := P.transformer data
      let hasChanged := ! P.equality source target
      let ev : ConfigurationEvent :=
        { endpoint := res.endpoint
          configuration := target
          status :=
            if ! s1.loaded then .loaded
            else if hasChanged then .updated
            else .equal }
      let cbv := P.callback ev
      let configuration := if truthyVal cbv then cbv else target
      let s2 := { s1 with cacheVal := configuration, loaded := true }
      let pp := if ! s2.paused then setPolling s2 true else (s2, [])
      (pp.1,
       sp.2 ++ tf.1 ++ vtr ++ [.cacheRead] ++
         [.callbackInvoke ev, .cacheWrite configuration] ++ pp.2,
       { ev with configuration })

/-- ConfigClient.getConfiguration: override short-circuit, else read the
cache and return a cached event when the stored value is truthy, else
delegate to refresh. -/
def getConfiguration (P : Providers) (s : ClientState) :
    ClientState × List Effect × ConfigurationEvent :=
  if truthyVal s.override then getOverride P s
  else
    let source := s.cacheVal
    if truthyVal source then
      (s, [.cacheRead], { configuration := source, status := .cached })
    else
      let r := refresh P s
      (r.1, .cacheRead :: r.2.1, r.2.2)

/-- ConfigClient.pause: set the paused flag and clear any pending timer. -/
def pause (s : ClientState) : ClientState × List Effect :=
  setPolling { s with paused := true } false

/-- ConfigClient.resume: clear the paused flag and start the timer. -/
def resume (s : ClientState) : ClientState × List Effect :=
  setPolling { s with paused := false } true

/-- Options relevant to constructor validation; hasCallback records whether
the required callback option was supplied at all. -/
structure ClientOptions where
  endpoints : List String := []
  override : Val := .vUndefined
  interval : Nat := 0
  hasCallback : Bool := true

/-- OptionsError thrown by the constructor on invalid options. -/
structure OptionsError where
  message : String
  deriving DecidableEq

/-- Classifier: effect is a fetch invocation. -/
def Effect.isFetchCall : Effect → Bool
  | .fetchCall _ => true
  | _ => false

/-- Classifier: effect is a per-endpoint failure report, through onFetchError
or onUndefinedError. -/
def Effect.isReport : Effect → Bool
  | .fetchErrorReport _ _ => true
  | .undefinedErrorReport _ => true
  | _ => false

/-- Classifier: effect belongs to the endpoint resolver (a fetch invocation
or a per-endpoint failure report). -/
def Effect.isResolverEffect : Effect → Bool
  | .fetchCall _ => true
  | .fetchErrorReport _ _ => true
  | .undefinedErrorReport _ => true
  | _ => false

/-- Classifier: effect is a validator invocation. -/
def Effect.isValidatorCall : Effect → Bool
  | .validatorCall _ => true
  | _ => false

/-- Classifier: effect is a validation-error report. -/
def Effect.isValidationReport : Effect → Bool
  | .validationErrorReport _ _ => true
  | _ => false

/-- Classifier: effect is a cache read. -/
def Effect.isCacheRead : Effect → Bool
  | .cacheRead => true
  | _ => false

/-- Classifier: effect is a cache write. -/
def Effect.isCacheWrite : Effect → Bool
  | .cacheWrite _ => true
  | _ => false

/-- Classifier: effect is a consumer-callback invocation. -/
def Effect.isCallbackInvoke : Effect → Bool
  | .callbackInvoke _ => true
  | _ => false

/-- Classifier: effect is a timer manipulation. -/
def Effect.isTimerEffect : Effect → Bool
  | .timerSet _ => true
  | .timerClear _ => true
  | _ => false

/-- A given endpoint fails under a given fetch provider: awaiting the fetch
either rejects or resolves with a falsy value. -/
def epFailsB (fetch : String → FetchOutcome) (ep : String) : Bool :=
  match fetch ep with
  | .reject _ => true
  | .resolve v => ! truthyVal v

/-- The two effects one failing endpoint contributes to the resolver trace:
its fetch invocation followed by exactly one report, an undefined-error
report when the fetch resolved (necessarily falsy for a failing endpoint)
and a fetch-error report carrying the cause when it rejected. -/
def failEffects (fetch : String → FetchOutcome) (ep : String) : List Effect :=
  match fetch ep with
  | .resolve _ => [.fetchCall ep, .undefinedErrorReport ep]
  | .reject e => [.fetchCall ep, .fetchErrorReport ep e]

/-- Resolver trace contributed by a list of failing endpoints, in order. -/
def failTrace (fetch : String → FetchOutcome) : List String → List Effect
  | [] => []
  | ep :: rest => failEffects fetch ep ++ failTrace fetch rest

/-- Candidate configuration of the pipeline: the transform provider applied
to the resolver's raw winning value. -/
def pipelineTarget (P : Providers) (s : ClientState) : Val :=
  P.transformer (tryFetch P.fetch s.endpoints).2.configuration

/-- Status the pipeline derives: loaded on the first successful run, else
updated when the candidate differs from the cached prior value under the
equality provider, else equal. -/
def pipelineStatus (P : Providers) (s : ClientState) : Status :=
  if ! s.loaded then .loaded
  else if ! P.equality s.cacheVal (pipelineTarget P s) then .updated
  else .equal

/-- Event the pipeline hands to the consumer callback. -/
def pipelineEvent (P : Providers) (s : ClientState) : ConfigurationEvent :=
  { endpoint := (tryFetch P.fetch s.endpoints).2.endpoint
    configuration := pipelineTarget P s
    status := pipelineStatus P s }

/-- Final configuration of a successful pipeline run: the callback's
resolved value when truthy, otherwise the candidate. -/
def pipelineConfig (P : Providers) (s : ClientState) : Val :=
  let cbv := P.callback (pipelineEvent P s)
  if truthyVal cbv then cbv else pipelineTarget P s

/-- Trace contributed by the validation step: the validator invocation,
followed by a validation-error report exactly when the validator rejects. -/
def validationTrace (P : Providers) (s : ClientState) : List Effect :=
  let data := (tryFetch P.fetch s.endpoints).2.configuration
  match P.validator data with
  | .resolve => [.validatorCall data]
  | .reject err => [.validatorCall data, .validationErrorReport err data]

/-- Timer effects a successful refresh emits after the cache write: when not
paused it calls setPolling true on the state as updated by the pipeline
(which schedules a timer for a positive interval and otherwise clears the
stored identifier again); when paused it does nothing. -/
def pollTrace (P : Providers) (s : ClientState) : List Effect :=
  if ! s.paused then
    (setPolling
      { (setPolling s false).1 with
          cacheVal := pipelineConfig P s
          loaded := true } true).2
  else []

/-- Constructor of ConfigClient: reject an empty or missing endpoint list
and a missing callback, otherwise build the initial state with the loaded
and paused flags false, the cache slot empty and no timer. The fire-and-
forget refresh triggered by the initialize option is an ordinary refresh on
this initial state and is not replayed here. -/
def mkClient (o : ClientOptions) : Except OptionsError ClientState :=
  if o.endpoints.length = 0 then
    .error ⟨"Missing endpoints"⟩
  else if ! o.hasCallback then
    .error ⟨"Missing callback method"⟩
  else
    .ok
      { override := o.override
        interval := o.interval
        endpoints := o.endpoints
        loaded := false
        paused := false
        cacheVal := .vUndefined
        timeoutId := none
        liveTimers := []
        nextTimerId := 0 }

/-- Deep-equality stand-in used by concrete instances: decidable equality on
the value model. -/
def eqV (a b : Val) : Bool :=
  a == b

/-- Consumer callback used by concrete instances: resolve with undefined,
expressing no opinion. -/
def cbNone (_ev : ConfigurationEvent) : Val :=
  .vUndefined

/-- Fetch provider of a concrete instance: the endpoint b resolves with an
object, every other endpoint rejects. -/
def w1Fetch (ep : String) : FetchOutcome :=
  if ep = "b" then .resolve (.vObj 1) else .reject (.vStr "down")

/-- Fetch provider of a concrete instance: the endpoint a resolves with an
object, every other endpoint rejects. -/
def aFetch (ep : String) : FetchOutcome :=
  if ep = "a" then .resolve (.vObj 1) else .reject (.vStr "down")

/-- Fetch provider of a concrete instance: every endpoint rejects. -/
def allRejectFetch (_ep : String) : FetchOutcome :=
  .reject (.vStr "down")

/-- Fetch provider of a concrete instance: every endpoint resolves with the
empty string, a falsy but defined value. -/
def emptyStrFetch (_ep : String) : FetchOutcome :=
  .resolve (.vStr "")

/-- Fetch provider of a concrete instance: every endpoint resolves with an
object. -/
def okFetch (_ep : String) : FetchOutcome :=
  .resolve (.vObj 7)

/-- Validation provider of a concrete instance: always rejects. -/
def rejectValidator (_config : Val) : ValidationOutcome :=
  .reject (.vStr "invalid")

/-- Transform provider of a concrete instance: always produces the empty
string, a falsy value that is not undefined. -/
def emptyStrTransformer (_config : Val) : Val :=
  .vStr ""

/-- Providers of a concrete instance built around a fetch provider, with
the default transformer and validator. -/
def mkP (f : String → FetchOutcome) : Providers :=
  { fetch := f
    equality := eqV
    transformer := defaultTransformer
    validator := defaultValidator
    callback := cbNone }

/-- Concrete client state with one endpoint and no polling interval. -/
def sOne : ClientState :=
  { endpoints := ["a"] }

/-- Concrete client state with one endpoint and a five-second interval. -/
def sPoll : ClientState :=
  { endpoints := ["a"], interval := 5 }

/-- Concrete client state with a truthy override. -/
def sOver : ClientState :=
  { endpoints := ["a"], override := .vObj 9, interval := 5 }

/-- Concrete client state whose override is falsy but defined (the number
zero), as a caller supplying a falsy override value of its type. -/
def sZeroOver : ClientState :=
  { endpoints := ["a"], override := .vNum 0 }

/-- The same client state with the override option erased, for comparing a
client holding a falsy override with one holding no override at all. -/
def clearOverride (s : ClientState) : ClientState :=
  { s with override := .vUndefined }

/-- Winning run of the tryFetch loop: with every endpoint of the leading
segment non-empty and failing, and a non-empty endpoint w whose fetch
resolves with a truthy value next, the loop returns w and that value, the
trace is the failure trace of the leading segment followed by the fetch of
w, and nothing behind w is touched, whatever the accumulated data is. -/
theorem tryFetchLoop_win (fetch : String → FetchOutcome) (w : String) (v : Val)
    (post : List String) (hw : w ≠ "") (hv : fetch w = .resolve v)
    (hvt : truthyVal v = true) (pre : List String) :
    ∀ d : Val, (∀ ep ∈ pre, ep ≠ "" ∧ epFailsB fetch ep = true) →
      tryFetchLoop fetch (pre ++ w :: post) d =
        (failTrace fetch pre ++ [Effect.fetchCall w], some w, v) := by
  induction pre with
  | nil =>
    intro d _
    simp [tryFetchLoop, hw, hv, hvt, failTrace]
  | cons ep rest ih =>
    intro d hpre
    obtain ⟨hne, hfail⟩ := hpre ep (List.mem_cons_self ep rest)
    have hrest : ∀ e ∈ rest, e ≠ "" ∧ epFailsB fetch e = true :=
      fun e he => hpre e (List.mem_cons_of_mem ep he)
    cases hfe : fetch ep with
    | resolve u =>
      have hu : truthyVal u = false := by
        have := hfail
        simp only [epFailsB, hfe, Bool.not_eq_true'] at this
        exact this
      simp [tryFetchLoop, hne, hfe, hu, failTrace, failEffects,
        ih u hrest]
    | reject e =>
      simp [tryFetchLoop, hne, hfe, failTrace, failEffects, ih d hrest]

/-- Exhausted run of the tryFetch loop, data aspect only: when every listed
endpoint fails (no restriction on empty endpoint strings, which simply end
the loop early), a falsy accumulator stays falsy through the whole loop. -/
theorem tryFetchLoop_falsy (fetch : String → FetchOutcome) (l : List String) :
    ∀ d : Val, truthyVal d = false →
      (∀ ep ∈ l, epFailsB fetch ep = true) →
      truthyVal (tryFetchLoop fetch l d).2.2 = false := by
  induction l with
  | nil =>
    intro d hd _
    simpa [tryFetchLoop] using hd
  | cons ep rest ih =>
    intro d hd h
    have hrest : ∀ e ∈ rest, epFailsB fetch e = true :=
      fun e he => h e (List.mem_cons_of_mem ep he)
    by_cases hne : ep = ""
    · simp [tryFetchLoop, hne, hd]
    · cases hfe : fetch ep with
      | resolve u =>
        have hu : truthyVal u = false := by
          have := h ep (List.mem_cons_self ep rest)
          simp only [epFailsB, hfe, Bool.not_eq_true'] at this
          exact this
        simp [tryFetchLoop, hne, hfe, hu, ih u hu hrest]
      | reject e =>
        simp [tryFetchLoop, hne, hfe, ih d hd hrest]

/-- Exhausted run of the tryFetch loop, full shape: when every listed
endpoint is non-empty and fails, the loop walks the whole list, its trace is
the failure trace, the ep variable ends undefined, the final data stays
falsy, and when moreover every endpoint rejected the data is untouched. -/
theorem tryFetchLoop_exhaust (fetch : String → FetchOutcome) (l : List String) :
    ∀ d : Val, truthyVal d = false →
      (∀ ep ∈ l, ep ≠ "" ∧ epFailsB fetch ep = true) →
      (tryFetchLoop fetch l d).1 = failTrace fetch l ∧
      (tryFetchLoop fetch l d).2.1 = none ∧
      truthyVal (tryFetchLoop fetch l d).2.2 = false ∧
      ((∀ ep ∈ l, ∃ e, fetch ep = .reject e) →
        (tryFetchLoop fetch l d).2.2 = d) := by
  induction l with
  | nil =>
    intro d hd _
    simp [tryFetchLoop, failTrace, hd]
  | cons ep rest ih =>
    intro d hd h
    obtain ⟨hne, hfail⟩ := h ep (List.mem_cons_self ep rest)
    have hrest : ∀ e ∈ rest, e ≠ "" ∧ epFailsB fetch e = true :=
      fun e he => h e (List.mem_cons_of_mem ep he)
    cases hfe : fetch ep with
    | resolve u =>
      have hu : truthyVal u = false := by
        simp only [epFailsB, hfe, Bool.not_eq_true'] at hfail
        exact hfail
      obtain ⟨h1, h2, h3, _⟩ := ih u hu hrest
      refine ⟨?_, ?_, ?_, ?_⟩
      · simp [tryFetchLoop, hne, hfe, hu, failTrace, failEffects, h1]
      · simp [tryFetchLoop, hne, hfe, hu, h2]
      · simp [tryFetchLoop, hne, hfe, hu, h3]
      · intro hall
        obtain ⟨e, he⟩ := hall ep (List.mem_cons_self ep rest)
        rw [hfe] at he
        cases he
    | reject e =>
      obtain ⟨h1, h2, h3, h4⟩ := ih d hd hrest
      refine ⟨?_, ?_, ?_, ?_⟩
      · simp [tryFetchLoop, hne, hfe, failTrace, failEffects, h1]
      · simp [tryFetchLoop, hne, hfe, h2]
      · simp [tryFetchLoop, hne, hfe, h3]
      · intro hall
        have := h4 (fun x hx => hall x (List.mem_cons_of_mem ep hx))
        simp [tryFetchLoop, hne, hfe, this]

/-- Every effect the tryFetch loop emits belongs to the resolver: a fetch
invocation or a per-endpoint failure report. -/
theorem tryFetchLoop_kinds (fetch : String → FetchOutcome) (l : List String) :
    ∀ d : Val, ∀ e ∈ (tryFetchLoop fetch l d).1, e.isResolverEffect = true := by
  induction l with
  | nil =>
    intro d e he
    simp [tryFetchLoop] at he
  | cons ep rest ih =>
    intro d e he
    by_cases hne : ep = ""
    · simp [tryFetchLoop, hne] at he
    · cases hfe : fetch ep with
      | resolve u =>
        by_cases hu : truthyVal u = true
        · simp [tryFetchLoop, hne, hfe, hu] at he
          simp [he, Effect.isResolverEffect]
        · simp only [Bool.not_eq_true] at hu
          simp [tryFetchLoop, hne, hfe, hu] at he
          rcases he with he | he | he
          · simp [he, Effect.isResolverEffect]
          · simp [he, Effect.isResolverEffect]
          · exact ih u e he
      | reject c =>
        simp [tryFetchLoop, hne, hfe] at he
        rcases he with he | he | he
        · simp [he, Effect.isResolverEffect]
        · simp [he, Effect.isResolverEffect]
        · exact ih d e he

/-- Asking setPolling to stop never takes the scheduling branch. -/
theorem setPolling_false_eq (s : ClientState) :
    setPolling s false =
      (match s.timeoutId with
       | some id => ({ s with liveTimers := s.liveTimers.erase id }, [.timerClear id])
       | none => (s, [])) := by
  simp [setPolling]

/-- The setPolling helper never touches the override field. -/
theorem setPolling_override (s : ClientState) (b : Bool) :
    (setPolling s b).1.override = s.override := by
  unfold setPolling
  split
  · rfl
  · cases h : s.timeoutId <;> simp [h]

/-- The setPolling helper never touches the loaded flag. -/
theorem setPolling_loaded (s : ClientState) (b : Bool) :
    (setPolling s b).1.loaded = s.loaded := by
  unfold setPolling
  split
  · rfl
  · cases h : s.timeoutId <;> simp [h]

/-- The setPolling helper never touches the paused flag. -/
theorem setPolling_paused (s : ClientState) (b : Bool) :
    (setPolling s b).1.paused = s.paused := by
  unfold setPolling
  split
  · rfl
  · cases h : s.timeoutId <;> simp [h]

/-- The setPolling helper never touches the cache slot. -/
theorem setPolling_cacheVal (s : ClientState) (b : Bool) :
    (setPolling s b).1.cacheVal = s.cacheVal := by
  unfold setPolling
  split
  · rfl
  · cases h : s.timeoutId <;> simp [h]

/-- The setPolling helper never touches the endpoint list. -/
theorem setPolling_endpoints (s : ClientState) (b : Bool) :
    (setPolling s b).1.endpoints = s.endpoints := by
  unfold setPolling
  split
  · rfl
  · cases h : s.timeoutId <;> simp [h]

/-- The setPolling helper never touches the interval. -/
theorem setPolling_interval (s : ClientState) (b : Bool) :
    (setPolling s b).1.interval = s.interval := by
  unfold setPolling
  split
  · rfl
  · cases h : s.timeoutId <;> simp [h]

/-- Every effect setPolling emits is a timer manipulation. -/
theorem setPolling_kinds (s : ClientState) (b : Bool) :
    ∀ e ∈ (setPolling s b).2, e.isTimerEffect = true := by
  unfold setPolling
  split
  · intro e he
    simp at he
    simp [he, Effect.isTimerEffect]
  · cases h : s.timeoutId with
    | none => intro e he; simp [h] at he
    | some id =>
      intro e he
      simp [h] at he
      simp [he, Effect.isTimerEffect]

/-- Run of refresh in which all endpoints fail: the override branch not
taken, refresh stops the timer, walks the endpoints and returns the error
event directly, with the status error, an undefined configuration and a
ConfigurationFailedError carrying the full configured endpoint list; the
trace is the timer cancellation followed by the resolver trace. -/
theorem refresh_error_eq (P : Providers) (s : ClientState)
    (hov : truthyVal s.override = false)
    (hall : ∀ ep ∈ s.endpoints, epFailsB P.fetch ep = true) :
    refresh P s =
      ((setPolling s false).1,
       (setPolling s false).2 ++ (tryFetch P.fetch s.endpoints).1,
       { status := .error
         endpoint := (tryFetch P.fetch s.endpoints).2.endpoint
         configuration := .vUndefined
         error := some ⟨s.endpoints⟩ }) := by
  have hfal : truthyVal (tryFetchLoop P.fetch s.endpoints .vUndefined).2.2 = false :=
    tryFetchLoop_falsy P.fetch s.endpoints .vUndefined rfl hall
  have herr : (tryFetch P.fetch s.endpoints).2.error = some ⟨s.endpoints⟩ := by
    simp [tryFetch, hfal]
  simp only [refresh, hov, Bool.false_eq_true, if_false, herr]

/-- Run of refresh in which the resolver produced a winner: the returned
event is the pipeline event with the configuration possibly replaced by the
callback, the cache slot holds the final configuration, the loaded flag is
set, and the trace is the timer cancellation, the resolver trace, the
validation step, the cache read, the callback invocation, the cache write
and the closing timer effects, in this order. -/
theorem refresh_success (P : Providers) (s : ClientState)
    (hov : truthyVal s.override = false)
    (hne : (tryFetch P.fetch s.endpoints).2.error = none) :
    (refresh P s).2.2 = { pipelineEvent P s with configuration := pipelineConfig P s } ∧
    (refresh P s).1.cacheVal = pipelineConfig P s ∧
    (refresh P s).1.loaded = true ∧
    (refresh P s).2.1 =
      (setPolling s false).2 ++ (tryFetch P.fetch s.endpoints).1 ++
        validationTrace P s ++ [.cacheRead] ++
        [.callbackInvoke (pipelineEvent P s), .cacheWrite (pipelineConfig P s)] ++
        pollTrace P s := by
  simp only [refresh, hov, Bool.false_eq_true, if_false, hne]
  simp only [pipelineEvent, pipelineStatus, pipelineTarget, pipelineConfig, validationTrace,
    pollTrace, setPolling_loaded, setPolling_cacheVal]
  refine ⟨trivial, ?_, ?_, ?_⟩
  · by_cases hp : s.paused
    · simp [setPolling_paused, hp]
    · simp [setPolling_paused, hp, setPolling_cacheVal]
  · by_cases hp : s.paused
    · simp [setPolling_paused, hp]
    · simp [setPolling_paused, hp, setPolling_loaded]
  · by_cases hp : s.paused
    · simp [setPolling_paused, hp]
    · simp [setPolling_paused, hp]

/-- Fetch calls of a failure trace are exactly the failed endpoints, in
order. -/
theorem failTrace_filter_fetchCall (fetch : String → FetchOutcome) (l : List String) :
    (failTrace fetch l).filter Effect.isFetchCall = l.map Effect.fetchCall := by
  induction l with
  | nil => simp [failTrace]
  | cons ep rest ih =>
    cases hfe : fetch ep <;>
      simp [failTrace, failEffects, hfe, Effect.isFetchCall, ih]

/-- A failure trace holds exactly one per-endpoint report per endpoint. -/
theorem failTrace_countP_report (fetch : String → FetchOutcome) (l : List String) :
    (failTrace fetch l).countP Effect.isReport = l.length := by
  induction l with
  | nil => simp [failTrace]
  | cons ep rest ih =>
    cases hfe : fetch ep <;>
      simp [failTrace, failEffects, hfe, Effect.isReport, List.countP_cons, ih,
        List.countP_append]

/-- A list none of whose elements satisfies a predicate counts zero. -/
theorem countP_zero_of_mem (l : List Effect) (p : Effect → Bool)
    (h : ∀ e ∈ l, p e = false) : l.countP p = 0 := by
  rw [List.countP_eq_zero]
  intro a ha
  simp [h a ha]

/-- A timer effect is none of the pipeline effects. -/
theorem timer_effect_not_pipeline (e : Effect) (h : e.isTimerEffect = true) :
    e.isCacheWrite = false ∧ e.isCacheRead = false ∧ e.isValidatorCall = false ∧
    e.isCallbackInvoke = false ∧ e.isValidationReport = false := by
  cases e <;> simp_all [Effect.isTimerEffect, Effect.isCacheWrite, Effect.isCacheRead,
    Effect.isValidatorCall, Effect.isCallbackInvoke, Effect.isValidationReport]

/-- A resolver effect is none of the pipeline effects. -/
theorem resolver_effect_not_pipeline (e : Effect) (h : e.isResolverEffect = true) :
    e.isCacheWrite = false ∧ e.isCacheRead = false ∧ e.isValidatorCall = false ∧
    e.isCallbackInvoke = false ∧ e.isValidationReport = false := by
  cases e <;> simp_all [Effect.isResolverEffect, Effect.isCacheWrite, Effect.isCacheRead,
    Effect.isValidatorCall, Effect.isCallbackInvoke, Effect.isValidationReport]

/-- The tryFetch result carries either no error or a
ConfigurationFailedError with the full configured endpoint list. -/
theorem tryFetch_error_cases (fetch : String → FetchOutcome) (l : List String) :
    (tryFetch fetch l).2.error = none ∨
    (tryFetch fetch l).2.error = some ⟨l⟩ := by
  simp only [tryFetch]
  split
  · exact Or.inl rfl
  · exact Or.inr rfl

/-- The tryFetch trace consists of resolver effects only. -/
theorem tryFetch_kinds (fetch : String → FetchOutcome) (l : List String) :
    ∀ e ∈ (tryFetch fetch l).1, e.isResolverEffect = true := by
  intro e he
  exact tryFetchLoop_kinds fetch l .vUndefined e he

/-- The closing timer effects of a successful refresh are timer effects. -/
theorem pollTrace_kinds (P : Providers) (s : ClientState) :
    ∀ e ∈ pollTrace P s, e.isTimerEffect = true := by
  unfold pollTrace
  split
  · exact setPolling_kinds _ _
  · intro e he
    simp at he

/-- Variant of the error-branch characterization of refresh assuming the
resolver reported the failure directly. -/
theorem refresh_error_of_some (P : Providers) (s : ClientState)
    (hov : truthyVal s.override = false)
    (herr : (tryFetch P.fetch s.endpoints).2.error = some ⟨s.endpoints⟩) :
    refresh P s =
      ((setPolling s false).1,
       (setPolling s false).2 ++ (tryFetch P.fetch s.endpoints).1,
       { status := .error
         endpoint := (tryFetch P.fetch s.endpoints).2.endpoint
         configuration := .vUndefined
         error := some ⟨s.endpoints⟩ }) := by
  simp only [refresh, hov, Bool.false_eq_true, if_false, herr]

/-- Refresh never resets a loaded flag that is already set. -/
theorem refresh_loaded_mono (P : Providers) (s : ClientState)
    (h : s.loaded = true) : (refresh P s).1.loaded = true := by
  by_cases hov : truthyVal s.override = true
  · simp [refresh, hov, getOverride]
  · have hov2 : truthyVal s.override = false := by simpa using hov
    rcases tryFetch_error_cases P.fetch s.endpoints with he | he
    · exact (refresh_success P s hov2 he).2.2.1
    · rw [refresh_error_of_some P s hov2 he]
      simp [setPolling_loaded, h]

/-- getConfiguration never resets a loaded flag that is already set. -/
theorem getConfiguration_loaded_mono (P : Providers) (s : ClientState)
    (h : s.loaded = true) : (getConfiguration P s).1.loaded = true := by
  by_cases hov : truthyVal s.override = true
  · simp [getConfiguration, hov, getOverride]
  · have hov2 : truthyVal s.override = false := by simpa using hov
    by_cases hc : truthyVal s.cacheVal = true
    · simp [getConfiguration, hov2, hc, h]
    · have hc2 : truthyVal s.cacheVal = false := by simpa using hc
      simp only [getConfiguration, hov2, Bool.false_eq_true, if_false, hc2]
      exact refresh_loaded_mono P s h

/-- Behavior of refresh does not depend on a falsy override value: the
result is that of the client with no override at all, except that the state
keeps carrying the falsy override. -/
theorem refresh_clearOverride (P : Providers) (s : ClientState)
    (hov : truthyVal s.override = false) :
    refresh P s =
      ({ (refresh P (clearOverride s)).1 with override := s.override },
       (refresh P (clearOverride s)).2) := by
  obtain ⟨ov, iv, eps, ld, pd, cv, tid, lts, nid⟩ := s
  simp only at hov
  have hund : truthyVal .vUndefined = false := rfl
  simp only [refresh, clearOverride, hov, hund, Bool.false_eq_true, if_false]
  rcases tryFetch_error_cases P.fetch eps with he | he
  · simp only [he]
    by_cases hi : 0 < iv <;> cases tid <;> by_cases hp : pd <;>
      simp [setPolling, he, hi, hp]
  · simp only [he]
    by_cases hi : 0 < iv <;> cases tid <;>
      simp [setPolling, he, hi]

/-- Behavior of getConfiguration does not depend on a falsy override value:
the result is that of the client with no override at all, except that the
state keeps carrying the falsy override. -/
theorem getConfiguration_clearOverride (P : Providers) (s : ClientState)
    (hov : truthyVal s.override = false) :
    getConfiguration P s =
      ({ (getConfiguration P (clearOverride s)).1 with override := s.override },
       (getConfiguration P (clearOverride s)).2) := by
  have hre := refresh_clearOverride P s hov
  obtain ⟨ov, iv, eps, ld, pd, cv, tid, lts, nid⟩ := s
  simp only at hov
  have hund : truthyVal .vUndefined = false := rfl
  simp only [getConfiguration, clearOverride, hov, hund, Bool.false_eq_true,
    if_false] at hre ⊢
  by_cases hc : truthyVal cv = true
  · simp [hc]
  · have hc2 : truthyVal cv = false := by simpa using hc
    simp [hc2, hre]

/-- C1 counterexample: with endpoints [empty, a] under a fetch for which the
empty endpoint rejects and a resolves a truthy object, a at index 1 is the
first endpoint whose fetch resolves with a truthy value; the claim then
requires the resolver to return endpoint a with that value and no error, but
tryFetch never reaches a: the empty endpoint string fails the truthiness
test on the shifted endpoint and ends the walk, so the resolver returns the
empty endpoint, an undefined configuration and a ConfigurationFailedError,
with no fetch call and no report at all. -/
theorem c1_counterexample :
    epFailsB aFetch "" = true ∧
    aFetch "a" = .resolve (.vObj 1) ∧
    truthyVal (.vObj 1) = true ∧
    ¬ ((tryFetch aFetch ["", "a"]).2.endpoint = some "a" ∧
       (tryFetch aFetch ["", "a"]).2.configuration = .vObj 1 ∧
       (tryFetch aFetch ["", "a"]).2.error = none) ∧
    (tryFetch aFetch ["", "a"]).2.endpoint = some "" ∧
    (tryFetch aFetch ["", "a"]).2.configuration = .vUndefined ∧
    (tryFetch aFetch ["", "a"]).2.error = some ⟨["", "a"]⟩ ∧
    (tryFetch aFetch ["", "a"]).1 = [] := by
  decide

/-- C1 (amended): for an endpoint list splitting as pre, w, post where every
endpoint of pre is a non-empty string whose fetch rejects or resolves falsy
and w is a non-empty string whose fetch resolves with the truthy value v (so
w is the first endpoint to return a truthy value), tryFetch returns w and v
with no error, its trace is exactly one fetch call and one failure report
per endpoint of pre (a FetchError report when the fetch raised, a
ConfigurationUndefinedError report when it resolved falsy) followed by the
fetch call of w, the fetch calls are exactly pre and then w, and no endpoint
after w is fetched. -/
theorem c1_first_truthy_endpoint_wins (fetch : String → FetchOutcome)
    (pre : List String) (w : String) (post : List String) (v : Val)
    (hpre : ∀ ep ∈ pre, ep ≠ "" ∧ epFailsB fetch ep = true)
    (hw : w ≠ "") (hv : fetch w = .resolve v) (hvt : truthyVal v = true) :
    tryFetch fetch (pre ++ w :: post) =
      (failTrace fetch pre ++ [Effect.fetchCall w],
       { endpoint := some w, configuration := v, error := none }) ∧
    (failTrace fetch pre ++ [Effect.fetchCall w]).filter Effect.isFetchCall =
      (pre ++ [w]).map Effect.fetchCall ∧
    (failTrace fetch pre ++ [Effect.fetchCall w]).countP Effect.isReport = pre.length := by
  refine ⟨?_, ?_, ?_⟩
  · simp [tryFetch, tryFetchLoop_win fetch w v post hw hv hvt pre .vUndefined hpre, hvt]
  · simp [List.filter_append, failTrace_filter_fetchCall, Effect.isFetchCall]
  · simp [List.countP_append, failTrace_countP_report, Effect.isReport]

/-- C1 witness: concrete run with pre the single rejecting endpoint a, the
winner b resolving a truthy object, and one endpoint c behind the winner. -/
theorem c1_witness :
    tryFetch w1Fetch (["a"] ++ "b" :: ["c"]) =
      (failTrace w1Fetch ["a"] ++ [Effect.fetchCall "b"],
       { endpoint := some "b", configuration := .vObj 1, error := none }) ∧
    (failTrace w1Fetch ["a"] ++ [Effect.fetchCall "b"]).filter Effect.isFetchCall =
      (["a"] ++ ["b"]).map Effect.fetchCall ∧
    (failTrace w1Fetch ["a"] ++ [Effect.fetchCall "b"]).countP Effect.isReport =
      (["a"] : List String).length :=
  c1_first_truthy_endpoint_wins w1Fetch ["a"] "b" ["c"] (.vObj 1)
    (by decide) (by decide) (by decide) (by decide)

/-- C9 counterexample: a single endpoint resolving the empty string (falsy
but defined) exhausts the resolver, and the claim then requires the
returned configuration to be undefined; but the data variable of tryFetch
keeps the last resolved value even when falsy, so the returned
configuration is the empty string, not undefined. -/
theorem c9_counterexample :
    epFailsB emptyStrFetch "a" = true ∧
    (tryFetch emptyStrFetch ["a"]).2.endpoint = none ∧
    (tryFetch emptyStrFetch ["a"]).2.error = some ⟨["a"]⟩ ∧
    ¬ (tryFetch emptyStrFetch ["a"]).2.configuration = .vUndefined ∧
    (tryFetch emptyStrFetch ["a"]).2.configuration = .vStr "" := by
  decide

/-- C9 (amended): for every list of non-empty endpoint strings each of
which rejects or resolves falsy, tryFetch returns endpoint undefined and a
ConfigurationFailedError carrying all endpoints, and its configuration is
falsy: it equals the last falsy value some fetch resolved with, and is
undefined in particular whenever every attempt rejected. -/
theorem c9_exhausted_resolver (fetch : String → FetchOutcome)
    (endpoints : List String)
    (hall : ∀ ep ∈ endpoints, ep ≠ "" ∧ epFailsB fetch ep = true) :
    (tryFetch fetch endpoints).2.endpoint = none ∧
    (tryFetch fetch endpoints).2.error = some ⟨endpoints⟩ ∧
    truthyVal (tryFetch fetch endpoints).2.configuration = false ∧
    ((∀ ep ∈ endpoints, ∃ e, fetch ep = .reject e) →
      (tryFetch fetch endpoints).2.configuration = .vUndefined) := by
  obtain ⟨h1, h2, h3, h4⟩ :=
    tryFetchLoop_exhaust fetch endpoints .vUndefined rfl hall
  refine ⟨?_, ?_, ?_, ?_⟩
  · simpa [tryFetch] using h2
  · simp [tryFetch, h3]
  · simpa [tryFetch] using h3
  · intro hrej
    simpa [tryFetch] using h4 hrej

/-- C9 witness: two endpoints both rejecting. -/
theorem c9_witness :
    (tryFetch allRejectFetch ["a", "b"]).2.endpoint = none ∧
    (tryFetch allRejectFetch ["a", "b"]).2.error = some ⟨["a", "b"]⟩ ∧
    truthyVal (tryFetch allRejectFetch ["a", "b"]).2.configuration = false ∧
    ((∀ ep ∈ (["a", "b"] : List String), ∃ e, allRejectFetch ep = .reject e) →
      (tryFetch allRejectFetch ["a", "b"]).2.configuration = .vUndefined) :=
  c9_exhausted_resolver allRejectFetch ["a", "b"] (by decide)

/-- C2: when every configured endpoint rejects or resolves falsy and no
truthy override is set, refresh returns an event with the status error, an
undefined configuration and a ConfigurationFailedError whose endpoints
field is the full configured endpoint list, and in that run the cache is
never written, the validator and the consumer callback are never invoked,
refresh itself never reads the cache, and the cache slot is unchanged. -/
theorem c2_all_endpoints_fail (P : Providers) (s : ClientState)
    (hov : truthyVal s.override = false)
    (hall : ∀ ep ∈ s.endpoints, epFailsB P.fetch ep = true) :
    (refresh P s).2.2.status = .error ∧
    (refresh P s).2.2.configuration = .vUndefined ∧
    (refresh P s).2.2.error = some ⟨s.endpoints⟩ ∧
    (refresh P s).2.1.countP Effect.isCacheWrite = 0 ∧
    (refresh P s).2.1.countP Effect.isCacheRead = 0 ∧
    (refresh P s).2.1.countP Effect.isValidatorCall = 0 ∧
    (refresh P s).2.1.countP Effect.isCallbackInvoke = 0 ∧
    (refresh P s).1.cacheVal = s.cacheVal := by
  have h := refresh_error_eq P s hov hall
  have hmem : ∀ e ∈ (setPolling s false).2 ++ (tryFetch P.fetch s.endpoints).1,
      e.isCacheWrite = false ∧ e.isCacheRead = false ∧ e.isValidatorCall = false ∧
      e.isCallbackInvoke = false ∧ e.isValidationReport = false := by
    intro e he
    rcases List.mem_append.1 he with he | he
    · exact timer_effect_not_pipeline e (setPolling_kinds s false e he)
    · exact resolver_effect_not_pipeline e (tryFetch_kinds P.fetch s.endpoints e he)
  rw [h]
  refine ⟨rfl, rfl, rfl, ?_, ?_, ?_, ?_, ?_⟩
  · exact countP_zero_of_mem _ _ fun e he => (hmem e he).1
  · exact countP_zero_of_mem _ _ fun e he => (hmem e he).2.1
  · exact countP_zero_of_mem _ _ fun e he => (hmem e he).2.2.1
  · exact countP_zero_of_mem _ _ fun e he => (hmem e he).2.2.2.1
  · exact setPolling_cacheVal s false

/-- C2 witness: one endpoint, always rejecting, no override. -/
theorem c2_witness :
    (refresh (mkP allRejectFetch) sOne).2.2.status = .error ∧
    (refresh (mkP allRejectFetch) sOne).2.2.configuration = .vUndefined ∧
    (refresh (mkP allRejectFetch) sOne).2.2.error = some ⟨sOne.endpoints⟩ ∧
    (refresh (mkP allRejectFetch) sOne).2.1.countP Effect.isCacheWrite = 0 ∧
    (refresh (mkP allRejectFetch) sOne).2.1.countP Effect.isCacheRead = 0 ∧
    (refresh (mkP allRejectFetch) sOne).2.1.countP Effect.isValidatorCall = 0 ∧
    (refresh (mkP allRejectFetch) sOne).2.1.countP Effect.isCallbackInvoke = 0 ∧
    (refresh (mkP allRejectFetch) sOne).1.cacheVal = sOne.cacheVal :=
  c2_all_endpoints_fail (mkP allRejectFetch) sOne (by decide) (by decide)

/-- C3: on a non-short-circuited pipeline run the status is loaded exactly
when the loaded flag is still false; otherwise it is updated exactly when
the transformed candidate differs from the cached prior value under the
equality provider, and equal otherwise; the run sets the flag. Moreover the
flag starts false at construction and is never reset: refresh,
getConfiguration, pause and resume all keep a set flag set. -/
theorem c3_status_derivation (P : Providers) (s : ClientState)
    (P2 : Providers) (s2 : ClientState) (o : ClientOptions) (s0 : ClientState)
    (hov : truthyVal s.override = false)
    (hne : (tryFetch P.fetch s.endpoints).2.error = none)
    (ho : mkClient o = .ok s0)
    (hl : s2.loaded = true) :
    ((refresh P s).2.2.status = .loaded ↔ s.loaded = false) ∧
    (s.loaded = true →
      ((refresh P s).2.2.status = .updated ↔
        P.equality s.cacheVal (pipelineTarget P s) = false)) ∧
    (s.loaded = true →
      ((refresh P s).2.2.status = .equal ↔
        P.equality s.cacheVal (pipelineTarget P s) = true)) ∧
    (refresh P s).1.loaded = true ∧
    s0.loaded = false ∧
    (refresh P2 s2).1.loaded = true ∧
    (getConfiguration P2 s2).1.loaded = true ∧
    (pause s2).1.loaded = true ∧
    (resume s2).1.loaded = true := by
  have h := refresh_success P s hov hne
  have hst : (refresh P s).2.2.status = pipelineStatus P s := by
    rw [h.1]
    rfl
  have hs0 : s0.loaded = false := by
    unfold mkClient at ho
    split at ho
    · cases ho
    · split at ho
      · cases ho
      · simp only [Except.ok.injEq] at ho
        subst ho
        rfl
  refine ⟨?_, ?_, ?_, h.2.2.1, hs0, refresh_loaded_mono P2 s2 hl,
    getConfiguration_loaded_mono P2 s2 hl, ?_, ?_⟩
  · cases hb : s.loaded with
    | false => simp [hst, pipelineStatus, hb]
    | true =>
      by_cases heq : P.equality s.cacheVal (pipelineTarget P s) = true <;>
        simp [hst, pipelineStatus, hb, heq]
  · intro hb
    by_cases heq : P.equality s.cacheVal (pipelineTarget P s) = true <;>
      simp [hst, pipelineStatus, hb, heq]
  · intro hb
    by_cases heq : P.equality s.cacheVal (pipelineTarget P s) = true <;>
      simp [hst, pipelineStatus, hb, heq]
  · simp [pause, setPolling_loaded, hl]
  · simp [resume, setPolling_loaded, hl]

/-- C3 witness: a fetch that always resolves an object, a fresh client, a
second client whose flag is already set, and the constructed client of the
one-endpoint options. -/
theorem c3_witness :
    ((refresh (mkP okFetch) sOne).2.2.status = .loaded ↔ sOne.loaded = false) ∧
    (sOne.loaded = true →
      ((refresh (mkP okFetch) sOne).2.2.status = .updated ↔
        (mkP okFetch).equality sOne.cacheVal (pipelineTarget (mkP okFetch) sOne) = false)) ∧
    (sOne.loaded = true →
      ((refresh (mkP okFetch) sOne).2.2.status = .equal ↔
        (mkP okFetch).equality sOne.cacheVal (pipelineTarget (mkP okFetch) sOne) = true)) ∧
    (refresh (mkP okFetch) sOne).1.loaded = true ∧
    sOne.loaded = false ∧
    (refresh (mkP okFetch) { sOne with loaded := true }).1.loaded = true ∧
    (getConfiguration (mkP okFetch) { sOne with loaded := true }).1.loaded = true ∧
    (pause { sOne with loaded := true }).1.loaded = true ∧
    (resume { sOne with loaded := true }).1.loaded = true :=
  c3_status_derivation (mkP okFetch) sOne (mkP okFetch) { sOne with loaded := true }
    { endpoints := ["a"] } sOne (by decide) (by decide) rfl (by decide)

/-- C5: on a successful pipeline run, a truthy callback result replaces the
transformed candidate in the cache write, the cache slot and the returned
event, while a falsy callback result leaves the transformed candidate in
place for all three, so the callback cannot erase the candidate by
returning nothing. -/
theorem c5_callback_replacement (P : Providers) (s : ClientState)
    (hov : truthyVal s.override = false)
    (hne : (tryFetch P.fetch s.endpoints).2.error = none) :
    (truthyVal (P.callback (pipelineEvent P s)) = true →
      (refresh P s).2.2.configuration = P.callback (pipelineEvent P s) ∧
      (refresh P s).1.cacheVal = P.callback (pipelineEvent P s) ∧
      Effect.cacheWrite (P.callback (pipelineEvent P s)) ∈ (refresh P s).2.1) ∧
    (truthyVal (P.callback (pipelineEvent P s)) = false →
      (refresh P s).2.2.configuration = pipelineTarget P s ∧
      (refresh P s).1.cacheVal = pipelineTarget P s ∧
      Effect.cacheWrite (pipelineTarget P s) ∈ (refresh P s).2.1) := by
  obtain ⟨hev, hcache, _, htr⟩ := refresh_success P s hov hne
  have hconf : (refresh P s).2.2.configuration = pipelineConfig P s := by
    rw [hev]
  constructor
  · intro hcb
    have hpc : pipelineConfig P s = P.callback (pipelineEvent P s) := by
      simp [pipelineConfig, hcb]
    exact ⟨by rw [hconf, hpc], by rw [hcache, hpc], by rw [htr, ← hpc]; simp⟩
  · intro hcb
    have hpc : pipelineConfig P s = pipelineTarget P s := by
      simp [pipelineConfig, hcb]
    exact ⟨by rw [hconf, hpc], by rw [hcache, hpc], by rw [htr, ← hpc]; simp⟩

/-- C5 witness: a resolving fetch with a callback that returns undefined,
exercising the falsy branch concretely and the truthy branch vacuously at
the same input. -/
theorem c5_witness :
    (truthyVal ((mkP okFetch).callback (pipelineEvent (mkP okFetch) sOne)) = true →
      (refresh (mkP okFetch) sOne).2.2.configuration =
        (mkP okFetch).callback (pipelineEvent (mkP okFetch) sOne) ∧
      (refresh (mkP okFetch) sOne).1.cacheVal =
        (mkP okFetch).callback (pipelineEvent (mkP okFetch) sOne) ∧
      Effect.cacheWrite ((mkP okFetch).callback (pipelineEvent (mkP okFetch) sOne)) ∈
        (refresh (mkP okFetch) sOne).2.1) ∧
    (truthyVal ((mkP okFetch).callback (pipelineEvent (mkP okFetch) sOne)) = false →
      (refresh (mkP okFetch) sOne).2.2.configuration = pipelineTarget (mkP okFetch) sOne ∧
      (refresh (mkP okFetch) sOne).1.cacheVal = pipelineTarget (mkP okFetch) sOne ∧
      Effect.cacheWrite (pipelineTarget (mkP okFetch) sOne) ∈
        (refresh (mkP okFetch) sOne).2.1) :=
  c5_callback_replacement (mkP okFetch) sOne (by decide) (by decide)

/-- C6: with a truthy override, getConfiguration and refresh both short-
circuit to getOverride, whose entire behavior is: build the cached event
around the override, invoke the consumer callback exactly once (the trace is
that single effect: no fetch call, no cache read or write, no timer
manipulation), set the loaded flag and change nothing else in the state, and
return the cached event whose configuration is the callback's truthy
resolved value if any, else the override itself. -/
theorem c6_override_mode (P : Providers) (s : ClientState)
    (hov : truthyVal s.override = true) :
    getConfiguration P s = getOverride P s ∧
    refresh P s = getOverride P s ∧
    getOverride P s =
      ({ s with loaded := true },
       [.callbackInvoke { configuration := s.override, status := .cached }],
       { status := .cached
         endpoint := none
         configuration :=
           if truthyVal (P.callback { configuration := s.override, status := .cached }) = true
           then P.callback { configuration := s.override, status := .cached }
           else s.override
         error := none }) := by
  refine ⟨by simp [getConfiguration, hov], by simp [refresh, hov], ?_⟩
  simp [getOverride]

/-- C6 witness: a client whose override is a truthy object and whose
callback resolves undefined, so the returned configuration is the override
itself. -/
theorem c6_witness :
    getConfiguration (mkP okFetch) sOver = getOverride (mkP okFetch) sOver ∧
    refresh (mkP okFetch) sOver = getOverride (mkP okFetch) sOver ∧
    getOverride (mkP okFetch) sOver =
      ({ sOver with loaded := true },
       [.callbackInvoke { configuration := sOver.override, status := .cached }],
       { status := .cached
         endpoint := none
         configuration :=
           if truthyVal ((mkP okFetch).callback
               { configuration := sOver.override, status := .cached }) = true
           then (mkP okFetch).callback { configuration := sOver.override, status := .cached }
           else sOver.override
         error := none }) :=
  c6_override_mode (mkP okFetch) sOver (by decide)

/-- C7: when the resolver produced a winner and the validator rejects, the
error is caught inside the pipeline and reported exactly once through the
validation-error callback together with the raw fetched value, and the run
still invokes the consumer callback, writes the cache with the unvalidated
transformed value and returns the very same event as a run whose validator
accepts, so validation failure changes no status and propagates nowhere. -/
theorem c7_validation_advisory (P : Providers) (s : ClientState) (err : Val)
    (hov : truthyVal s.override = false)
    (hne : (tryFetch P.fetch s.endpoints).2.error = none)
    (hrej : P.validator (tryFetch P.fetch s.endpoints).2.configuration = .reject err) :
    (refresh P s).2.1.countP Effect.isValidationReport = 1 ∧
    Effect.validationErrorReport err (tryFetch P.fetch s.endpoints).2.configuration
      ∈ (refresh P s).2.1 ∧
    Effect.callbackInvoke (pipelineEvent P s) ∈ (refresh P s).2.1 ∧
    Effect.cacheWrite (pipelineConfig P s) ∈ (refresh P s).2.1 ∧
    (refresh P s).1.cacheVal = pipelineConfig P s ∧
    (refresh P s).2.2.status = pipelineStatus P s ∧
    (refresh P s).2.2 = (refresh { P with validator := defaultValidator } s).2.2 := by
  obtain ⟨hev, hcache, hld, htr⟩ := refresh_success P s hov hne
  have hvt : validationTrace P s =
      [.validatorCall (tryFetch P.fetch s.endpoints).2.configuration,
       .validationErrorReport err (tryFetch P.fetch s.endpoints).2.configuration] := by
    simp [validationTrace, hrej]
  have h1 : ((setPolling s false).2).countP Effect.isValidationReport = 0 :=
    countP_zero_of_mem _ _ fun e he =>
      (timer_effect_not_pipeline e (setPolling_kinds s false e he)).2.2.2.2
  have h2 : ((tryFetch P.fetch s.endpoints).1).countP Effect.isValidationReport = 0 :=
    countP_zero_of_mem _ _ fun e he =>
      (resolver_effect_not_pipeline e (tryFetch_kinds P.fetch s.endpoints e he)).2.2.2.2
  have h3 : (pollTrace P s).countP Effect.isValidationReport = 0 :=
    countP_zero_of_mem _ _ fun e he =>
      (timer_effect_not_pipeline e (pollTrace_kinds P s e he)).2.2.2.2
  have hev2 := (refresh_success { P with validator := defaultValidator } s hov hne).1
  refine ⟨?_, ?_, ?_, ?_, hcache, ?_, ?_⟩
  · rw [htr, hvt]
    simp [List.countP_append, List.countP_cons, h1, h2, h3, Effect.isValidationReport]
  · rw [htr, hvt]
    simp
  · rw [htr]
    simp
  · rw [htr]
    simp
  · rw [hev]
    rfl
  · rw [hev, hev2]
    rfl

/-- C7 witness: a resolving fetch with an always-rejecting validator. -/
theorem c7_witness :
    (refresh { mkP okFetch with validator := rejectValidator } sOne).2.1.countP
      Effect.isValidationReport = 1 ∧
    Effect.validationErrorReport (.vStr "invalid")
        (tryFetch { mkP okFetch with validator := rejectValidator }.fetch
          sOne.endpoints).2.configuration
      ∈ (refresh { mkP okFetch with validator := rejectValidator } sOne).2.1 ∧
    Effect.callbackInvoke
        (pipelineEvent { mkP okFetch with validator := rejectValidator } sOne)
      ∈ (refresh { mkP okFetch with validator := rejectValidator } sOne).2.1 ∧
    Effect.cacheWrite
        (pipelineConfig { mkP okFetch with validator := rejectValidator } sOne)
      ∈ (refresh { mkP okFetch with validator := rejectValidator } sOne).2.1 ∧
    (refresh { mkP okFetch with validator := rejectValidator } sOne).1.cacheVal =
      pipelineConfig { mkP okFetch with validator := rejectValidator } sOne ∧
    (refresh { mkP okFetch with validator := rejectValidator } sOne).2.2.status =
      pipelineStatus { mkP okFetch with validator := rejectValidator } sOne ∧
    (refresh { mkP okFetch with validator := rejectValidator } sOne).2.2 =
      (refresh { { mkP okFetch with validator := rejectValidator } with
        validator := defaultValidator } sOne).2.2 :=
  c7_validation_advisory { mkP okFetch with validator := rejectValidator } sOne
    (.vStr "invalid") (by decide) (by decide) (by decide)

/-- C8 counterexample: with a caller-supplied transformer that produces the
empty string (falsy but not undefined) the pipeline hands exactly that
falsy value, not undefined, to the consumer callback and to the cache
write, and returns it as the event configuration: no normalization takes
place in the pipeline itself. -/
theorem c8_counterexample :
    (refresh { mkP okFetch with transformer := emptyStrTransformer } sOne).2.2.configuration
      = .vStr "" ∧
    truthyVal (.vStr "") = false ∧
    (Val.vStr "" : Val) ≠ .vUndefined ∧
    Effect.cacheWrite (.vStr "")
      ∈ (refresh { mkP okFetch with transformer := emptyStrTransformer } sOne).2.1 ∧
    Effect.callbackInvoke
        { status := .loaded, endpoint := some "a", configuration := .vStr "" }
      ∈ (refresh { mkP okFetch with transformer := emptyStrTransformer } sOne).2.1 := by
  decide

/-- C8 (amended): the pipeline itself performs no normalization of the
transformed value, but the default transformer collapses a falsy raw value
to undefined, so under the default transformer the candidate configuration
reaching the comparison, the callback and the cache write is always truthy
or undefined, never a falsy defined value. -/
theorem c8_default_transformer_normalizes (P : Providers) (s : ClientState)
    (hov : truthyVal s.override = false)
    (hne : (tryFetch P.fetch s.endpoints).2.error = none)
    (hdt : P.transformer = defaultTransformer) :
    (truthyVal (pipelineTarget P s) = true ∨ pipelineTarget P s = .vUndefined) ∧
    (pipelineEvent P s).configuration = pipelineTarget P s ∧
    Effect.callbackInvoke (pipelineEvent P s) ∈ (refresh P s).2.1 ∧
    Effect.cacheWrite (pipelineConfig P s) ∈ (refresh P s).2.1 ∧
    (truthyVal (P.callback (pipelineEvent P s)) = false →
      pipelineConfig P s = pipelineTarget P s) := by
  obtain ⟨hev, hcache, hld, htr⟩ := refresh_success P s hov hne
  refine ⟨?_, rfl, ?_, ?_, ?_⟩
  · by_cases hr : truthyVal (tryFetch P.fetch s.endpoints).2.configuration = true
    · exact Or.inl (by simp [pipelineTarget, hdt, defaultTransformer, hr])
    · have hr2 : truthyVal (tryFetch P.fetch s.endpoints).2.configuration = false := by
        simpa using hr
      exact Or.inr (by simp [pipelineTarget, hdt, defaultTransformer, hr2])
  · rw [htr]
    simp
  · rw [htr]
    simp
  · intro hcb
    simp [pipelineConfig, hcb]

/-- C8 witness: a truthy raw value under the default transformer. -/
theorem c8_witness :
    (truthyVal (pipelineTarget (mkP okFetch) sOne) = true ∨
      pipelineTarget (mkP okFetch) sOne = .vUndefined) ∧
    (pipelineEvent (mkP okFetch) sOne).configuration = pipelineTarget (mkP okFetch) sOne ∧
    Effect.callbackInvoke (pipelineEvent (mkP okFetch) sOne)
      ∈ (refresh (mkP okFetch) sOne).2.1 ∧
    Effect.cacheWrite (pipelineConfig (mkP okFetch) sOne)
      ∈ (refresh (mkP okFetch) sOne).2.1 ∧
    (truthyVal ((mkP okFetch).callback (pipelineEvent (mkP okFetch) sOne)) = false →
      pipelineConfig (mkP okFetch) sOne = pipelineTarget (mkP okFetch) sOne) :=
  c8_default_transformer_normalizes (mkP okFetch) sOne (by decide) (by decide) rfl

/-- C10: with a falsy override value the override short-circuit is not
taken: getConfiguration starts by reading the cache, falls through to
refresh when the cached value is falsy, and both operations behave exactly
as on the client with no override supplied at all, the only difference
being that the state keeps carrying the falsy override value. -/
theorem c10_falsy_override_ignored (P : Providers) (s : ClientState)
    (hov : truthyVal s.override = false) :
    (getConfiguration P s).2.1.head? = some .cacheRead ∧
    (truthyVal s.cacheVal = false →
      getConfiguration P s =
        ((refresh P s).1, .cacheRead :: (refresh P s).2.1, (refresh P s).2.2)) ∧
    (refresh P s).2 = (refresh P (clearOverride s)).2 ∧
    (refresh P s).1 = { (refresh P (clearOverride s)).1 with override := s.override } ∧
    (getConfiguration P s).2 = (getConfiguration P (clearOverride s)).2 ∧
    (getConfiguration P s).1 =
      { (getConfiguration P (clearOverride s)).1 with override := s.override } := by
  have hre := refresh_clearOverride P s hov
  have hgc := getConfiguration_clearOverride P s hov
  refine ⟨?_, ?_, ?_, ?_, ?_, ?_⟩
  · by_cases hc : truthyVal s.cacheVal = true
    · simp [getConfiguration, hov, hc]
    · have hc2 : truthyVal s.cacheVal = false := by simpa using hc
      simp [getConfiguration, hov, hc2]
  · intro hc
    simp [getConfiguration, hov, hc]
  · rw [hre]
  · rw [hre]
  · rw [hgc]
  · rw [hgc]

/-- C10 witness: a client whose override is the number zero, a falsy value
of its configuration type, with an empty cache. -/
theorem c10_witness :
    (getConfiguration (mkP okFetch) sZeroOver).2.1.head? = some .cacheRead ∧
    (truthyVal sZeroOver.cacheVal = false →
      getConfiguration (mkP okFetch) sZeroOver =
        ((refresh (mkP okFetch) sZeroOver).1,
         .cacheRead :: (refresh (mkP okFetch) sZeroOver).2.1,
         (refresh (mkP okFetch) sZeroOver).2.2)) ∧
    (refresh (mkP okFetch) sZeroOver).2 =
      (refresh (mkP okFetch) (clearOverride sZeroOver)).2 ∧
    (refresh (mkP okFetch) sZeroOver).1 =
      { (refresh (mkP okFetch) (clearOverride sZeroOver)).1 with
          override := sZeroOver.override } ∧
    (getConfiguration (mkP okFetch) sZeroOver).2 =
      (getConfiguration (mkP okFetch) (clearOverride sZeroOver)).2 ∧
    (getConfiguration (mkP okFetch) sZeroOver).1 =
      { (getConfiguration (mkP okFetch) (clearOverride sZeroOver)).1 with
          override := sZeroOver.override } :=
  c10_falsy_override_ignored (mkP okFetch) sZeroOver (by decide)

/-- C4: evaluation of the code at the failing scenario. A successful
refresh on a client with a five-second interval leaves exactly one live
timer; calling resume while that timer is live leaves two live timers, and
a second resume leaves three, because setPolling only schedules on start
and never cancels the previously scheduled timer first; the claimed
invariant of at most one outstanding timer is violated. -/
theorem c4_resume_duplicates_timers :
    (refresh (mkP okFetch) sPoll).1.liveTimers.length = 1 ∧
    (resume (refresh (mkP okFetch) sPoll).1).1.liveTimers.length = 2 ∧
    (resume (resume (refresh (mkP okFetch) sPoll).1).1).1.liveTimers.length = 3 := by
  decide
